import Mathlib

/-!
Verification of the `faster_whisper_cli.py` command-line wrapper.

The script parses an `input` positional argument and four optional flags
(`--model`, `--language`, `--device`, `--compute_type`), each defaulting to an
environment variable and then to a literal default; it constructs a
`WhisperModel`, transcribes the input, joins the trimmed segment texts with
single spaces, trims the result, prints it, and returns 0.  Errors from the
argument parser or from the model provider propagate and terminate the
process with a non-zero exit code.

We embed the wrapper as a pure function over the parsed flags, the process
environment (a map from variable names to optional values; `some ""` models a
variable set to the empty string, `none` an absent variable), and an abstract
provider supplying the two external operations.  The run produces a trace of
observable events together with the process exit code.
-/

namespace FasterWhisperCli

/-- The process environment: a map from variable names to their values.
`none` means the variable is absent; `some ""` means set to the empty
string (Python's `os.getenv` distinguishes the two). -/
def OsEnv : Type := String → Option String

/-- Parsed command-line flags.  `input.isNone` models the positional
argument being missing from the command line; each optional flag is `none`
when not passed. -/
structure Flags where
  input : Option String
  model : Option String
  language : Option String
  device : Option String
  compute_type : Option String

/-- The external speech-recognition provider: `construct` models
`WhisperModel(model, device=..., compute_type=...)` and `transcribe` models
`model.transcribe(input, language=...)` returning the fully consumed list of
segment texts.  Either operation may fail, modelling a raised exception. -/
structure Provider where
  construct : String → String → String → Except String Unit
  transcribe : String → Option String → Except String (List String)

/-- Observable events of one invocation, in order. -/
inductive Event where
  | printUsage
  | constructModel (model device compute : String)
  | transcribeCall (input : String) (language : Option String)
  | printLine (text : String)

/-- Result of one invocation: the ordered event trace and the exit code. -/
structure RunResult where
  trace : List Event
  exitCode : Nat

/-- `os.getenv(name, dflt)`: the variable's value when set (even to the
empty string), otherwise the default. -/
def getenvD (env : OsEnv) (name dflt : String) : String :=
  (env name).getD dflt

/-- Resolution of an optional flag that has a literal default:
explicit flag, else environment variable `name`, else `dflt`
(from `parser.add_argument("--...", default=os.getenv(name, dflt))`). -/
def resolveParam (flag : Option String) (env : OsEnv) (name dflt : String) : String :=
  flag.getD (getenvD env name dflt)

/-- Resolution of the `--language` flag, which has no literal default:
explicit flag, else environment variable `name`, else unset
(from `parser.add_argument("--language", default=os.getenv(name))`). -/
def resolveOpt (flag : Option String) (env : OsEnv) (name : String) : Option String :=
  flag <|> env name

/-- Python `str.strip()` with no argument: remove leading and trailing
whitespace characters. -/
def strip (s : String) : String :=
  String.mk (((s.data.dropWhile Char.isWhitespace).reverse.dropWhile
    Char.isWhitespace).reverse)

/-- `" ".join(seg.text.strip() for seg in segments).strip()`. -/
def renderText (segments : List String) : String :=
  strip (String.intercalate " " (segments.map strip))

/-- The whole of `main`, as a function of the parsed flags, the environment
and the provider.  A missing positional argument makes `argparse` print a
usage message and exit with code 2 before any model work; an exception from
the provider terminates the interpreter with exit code 1; otherwise the
joined transcript is printed and `main` returns 0. -/
def runMain (flags : Flags) (env : OsEnv) (p : Provider) : RunResult :=
  match flags.input with
  | none => { trace := [Event.printUsage], exitCode := 2 }
  | some input =>
    let model := resolveParam flags.model env "FASTER_WHISPER_MODEL" "base"
    let language := resolveOpt flags.language env "FASTER_WHISPER_LANGUAGE"
    let device := resolveParam flags.device env "FASTER_WHISPER_DEVICE" "cpu"
    let compute := resolveParam flags.compute_type env "FASTER_WHISPER_COMPUTE" "int8"
    match p.construct model device compute with
    | Except.error _ =>
        { trace := [Event.constructModel model device compute], exitCode := 1 }
    | Except.ok _ =>
      match p.transcribe input language with
      | Except.error _ =>
          { trace := [Event.constructModel model device compute,
                      Event.transcribeCall input language],
            exitCode := 1 }
      | Except.ok segs =>
          { trace := [Event.constructModel model device compute,
                      Event.transcribeCall input language,
                      Event.printLine (renderText segs)],
            exitCode := 0 }

/-- Bytes an event contributes to standard output (`print` appends a
newline; usage and diagnostics go to standard error). -/
def Event.stdoutOf : Event → String
  | Event.printLine s => s ++ "\n"
  | _ => ""

/-- Everything the run writes to standard output. -/
def RunResult.stdout (r : RunResult) : String :=
  String.join (r.trace.map Event.stdoutOf)

/-- Whether an event is a model construction. -/
def Event.isConstruct : Event → Bool
  | Event.constructModel _ _ _ => true
  | _ => false

/-- Whether an event is the usage message. -/
def Event.isUsage : Event → Bool
  | Event.printUsage => true
  | _ => false

/-- Whether the run ever constructed the model. -/
def RunResult.constructedModel (r : RunResult) : Bool :=
  r.trace.any Event.isConstruct

/-- Whether the run printed a usage message. -/
def RunResult.printedUsage (r : RunResult) : Bool :=
  r.trace.any Event.isUsage

/-- The `(model, device, compute_type)` triple the model was constructed
with, when it was. -/
def RunResult.constructArgs (r : RunResult) : Option (String × String × String) :=
  (r.trace.filterMap fun e =>
    match e with
    | Event.constructModel m d c => some (m, d, c)
    | _ => none).head?

/-- The `(input, language)` pair passed to the transcription call, when it
happened. -/
def RunResult.transcribeArgs (r : RunResult) : Option (String × Option String) :=
  (r.trace.filterMap fun e =>
    match e with
    | Event.transcribeCall i l => some (i, l)
    | _ => none).head?

/-- An environment with no variables set. -/
def envEmpty : OsEnv := fun _ => none

/-- An environment with exactly one variable set. -/
def envOne (name val : String) : OsEnv :=
  fun n => if n = name then some val else none

/-- A provider whose construction succeeds and whose transcription returns
the fixed segment list `segs`. -/
def okProvider (segs : List String) : Provider :=
  { construct := fun _ _ _ => Except.ok ()
    transcribe := fun _ _ => Except.ok segs }

/-- A provider whose model construction always fails. -/
def constructFails : Provider :=
  { construct := fun _ _ _ => Except.error "model load failed"
    transcribe := fun _ _ => Except.ok [] }

/-- A provider whose construction succeeds but whose transcription fails. -/
def transcribeFails : Provider :=
  { construct := fun _ _ _ => Except.ok ()
    transcribe := fun _ _ => Except.error "decode failed" }

/-- Flags with only the positional input given. -/
def flagsInputOnly (i : String) : Flags :=
  { input := some i, model := none, language := none, device := none, compute_type := none }

/-- Flags with no arguments at all (missing positional input). -/
def flagsNone : Flags :=
  { input := none, model := none, language := none, device := none, compute_type := none }

/-- Whenever the positional input is present, the model is constructed with
exactly the resolved (model, device, compute_type) triple, in every branch. -/
theorem constructArgs_of_input (flags : Flags) (env : OsEnv) (p : Provider) (i : String)
    (hin : flags.input = some i) :
    (runMain flags env p).constructArgs
      = some (resolveParam flags.model env "FASTER_WHISPER_MODEL" "base",
              resolveParam flags.device env "FASTER_WHISPER_DEVICE" "cpu",
              resolveParam flags.compute_type env "FASTER_WHISPER_COMPUTE" "int8") := by
  simp only [runMain, hin]
  split
  · rfl
  · split <;> rfl

/-- C1: for every finite segment list returned by the provider, stdout is
the segment texts each trimmed, joined with single spaces in order, the
whole trimmed, plus the trailing newline; and on `["  hello ", "world  "]`
the rendered text is exactly `"hello world"`. -/
theorem c1_render_join (flags : Flags) (env : OsEnv) (p : Provider)
    (i : String) (segs : List String)
    (hin : flags.input = some i)
    (hc : ∀ m d c, p.construct m d c = Except.ok ())
    (ht : ∀ inp lang, p.transcribe inp lang = Except.ok segs) :
    (runMain flags env p).stdout
      = strip (String.intercalate " " (segs.map strip)) ++ "\n" ∧
    renderText ["  hello ", "world  "] = "hello world" := by
  constructor
  · simp only [runMain, hin, hc, ht]
    rfl
  · rfl

theorem c1_render_join_witness :
    (runMain (flagsInputOnly "a.wav") envEmpty (okProvider ["  hello ", "world  "])).stdout
      = strip (String.intercalate " "
          ((["  hello ", "world  "] : List String).map strip)) ++ "\n" ∧
    renderText ["  hello ", "world  "] = "hello world" :=
  c1_render_join (flagsInputOnly "a.wav") envEmpty (okProvider ["  hello ", "world  "])
    "a.wav" ["  hello ", "world  "] rfl (fun _ _ _ => rfl) (fun _ _ => rfl)

/-- C2: each parameter resolves with precedence flag > environment variable
> built-in default, and with `FASTER_WHISPER_DEVICE=cuda` set and no
`--device` flag, the model is constructed with device `"cuda"`. -/
theorem c2_precedence (flags : Flags) (env e2 : OsEnv) (p : Provider)
    (i f v d name : String)
    (hin : flags.input = some i) (hflag : flags.device = none)
    (henv : env "FASTER_WHISPER_DEVICE" = some "cuda")
    (hv : e2 name = some v) :
    resolveParam (some f) e2 name d = f ∧
    resolveParam none e2 name d = v ∧
    resolveParam none envEmpty name d = d ∧
    resolveOpt (some f) e2 name = some f ∧
    resolveOpt none e2 name = some v ∧
    (runMain flags env p).constructArgs
      = some (resolveParam flags.model env "FASTER_WHISPER_MODEL" "base", "cuda",
              resolveParam flags.compute_type env "FASTER_WHISPER_COMPUTE" "int8") := by
  refine ⟨rfl, by simp [resolveParam, getenvD, hv], rfl, rfl,
    by simp [resolveOpt, hv], ?_⟩
  have hd : resolveParam flags.device env "FASTER_WHISPER_DEVICE" "cpu" = "cuda" := by
    simp [resolveParam, getenvD, hflag, henv]
  rw [constructArgs_of_input flags env p i hin, hd]

theorem c2_precedence_witness :
    resolveParam (some "flagval") (envOne "X" "envval") "X" "dflt" = "flagval" ∧
    resolveParam none (envOne "X" "envval") "X" "dflt" = "envval" ∧
    resolveParam none envEmpty "X" "dflt" = "dflt" ∧
    resolveOpt (some "flagval") (envOne "X" "envval") "X" = some "flagval" ∧
    resolveOpt none (envOne "X" "envval") "X" = some "envval" ∧
    (runMain (flagsInputOnly "a.wav") (envOne "FASTER_WHISPER_DEVICE" "cuda")
        (okProvider [])).constructArgs
      = some (resolveParam (flagsInputOnly "a.wav").model
                (envOne "FASTER_WHISPER_DEVICE" "cuda") "FASTER_WHISPER_MODEL" "base", "cuda",
              resolveParam (flagsInputOnly "a.wav").compute_type
                (envOne "FASTER_WHISPER_DEVICE" "cuda") "FASTER_WHISPER_COMPUTE" "int8") :=
  c2_precedence (flagsInputOnly "a.wav") (envOne "FASTER_WHISPER_DEVICE" "cuda")
    (envOne "X" "envval") (okProvider []) "a.wav" "flagval" "envval" "dflt" "X"
    rfl rfl (by decide) (by decide)

/-- C3: a missing positional input exits non-zero after printing a usage
message, and the model is never constructed. -/
theorem c3_missing_input (flags : Flags) (env : OsEnv) (p : Provider)
    (h : flags.input = none) :
    (runMain flags env p).exitCode ≠ 0 ∧
    (runMain flags env p).printedUsage = true ∧
    (runMain flags env p).constructedModel = false := by
  refine ⟨?_, ?_, ?_⟩ <;> simp [runMain, h, RunResult.printedUsage,
    RunResult.constructedModel, Event.isUsage, Event.isConstruct]

theorem c3_missing_input_witness :
    (runMain flagsNone envEmpty (okProvider [])).exitCode ≠ 0 ∧
    (runMain flagsNone envEmpty (okProvider [])).printedUsage = true ∧
    (runMain flagsNone envEmpty (okProvider [])).constructedModel = false :=
  c3_missing_input flagsNone envEmpty (okProvider []) rfl

/-- C4: if model construction or transcription fails, the error propagates
unrecovered: the exit code is non-zero and nothing is written to stdout. -/
theorem c4_errors_fatal (flags : Flags) (env : OsEnv) (p : Provider) (i : String)
    (hin : flags.input = some i)
    (hfail :
      (∃ msg, p.construct (resolveParam flags.model env "FASTER_WHISPER_MODEL" "base")
          (resolveParam flags.device env "FASTER_WHISPER_DEVICE" "cpu")
          (resolveParam flags.compute_type env "FASTER_WHISPER_COMPUTE" "int8")
        = Except.error msg) ∨
      (∃ msg, p.transcribe i (resolveOpt flags.language env "FASTER_WHISPER_LANGUAGE")
        = Except.error msg)) :
    (runMain flags env p).exitCode ≠ 0 ∧ (runMain flags env p).stdout = "" := by
  simp only [runMain, hin]
  rcases hfail with ⟨msg, hcon⟩ | ⟨msg, htr⟩
  · rw [hcon]
    exact ⟨Nat.one_ne_zero, rfl⟩
  · cases hcon : p.construct (resolveParam flags.model env "FASTER_WHISPER_MODEL" "base")
      (resolveParam flags.device env "FASTER_WHISPER_DEVICE" "cpu")
      (resolveParam flags.compute_type env "FASTER_WHISPER_COMPUTE" "int8") with
    | error e => exact ⟨Nat.one_ne_zero, rfl⟩
    | ok u =>
      rw [htr]
      exact ⟨Nat.one_ne_zero, rfl⟩

theorem c4_errors_fatal_witness :
    (runMain (flagsInputOnly "a.wav") envEmpty constructFails).exitCode ≠ 0 ∧
    (runMain (flagsInputOnly "a.wav") envEmpty constructFails).stdout = "" :=
  c4_errors_fatal (flagsInputOnly "a.wav") envEmpty constructFails "a.wav" rfl
    (Or.inl ⟨"model load failed", rfl⟩)

/-- C5: when the provider returns no segments, the run prints the empty
string followed by a newline and exits with code 0. -/
theorem c5_empty_segments (flags : Flags) (env : OsEnv) (p : Provider) (i : String)
    (hin : flags.input = some i)
    (hc : ∀ m d c, p.construct m d c = Except.ok ())
    (ht : ∀ inp lang, p.transcribe inp lang = Except.ok []) :
    (runMain flags env p).stdout = "\n" ∧ (runMain flags env p).exitCode = 0 := by
  simp only [runMain, hin, hc, ht]
  constructor <;> trivial

theorem c5_empty_segments_witness :
    (runMain (flagsInputOnly "a.wav") envEmpty (okProvider [])).stdout = "\n" ∧
    (runMain (flagsInputOnly "a.wav") envEmpty (okProvider [])).exitCode = 0 :=
  c5_empty_segments (flagsInputOnly "a.wav") envEmpty (okProvider []) "a.wav" rfl
    (fun _ _ _ => rfl) (fun _ _ => rfl)

/-- C6: with no flags and no environment variables, the resolved values are
the literal defaults `"base"`, unset language, `"cpu"`, `"int8"`, read from
the variables `FASTER_WHISPER_MODEL`, `FASTER_WHISPER_LANGUAGE`,
`FASTER_WHISPER_DEVICE`, `FASTER_WHISPER_COMPUTE`. -/
theorem c6_defaults (flags : Flags) (env : OsEnv) (p : Provider) (i : String)
    (hin : flags.input = some i)
    (hm : flags.model = none) (hl : flags.language = none)
    (hd : flags.device = none) (hct : flags.compute_type = none)
    (em : env "FASTER_WHISPER_MODEL" = none)
    (el : env "FASTER_WHISPER_LANGUAGE" = none)
    (ed : env "FASTER_WHISPER_DEVICE" = none)
    (ec : env "FASTER_WHISPER_COMPUTE" = none) :
    resolveParam flags.model env "FASTER_WHISPER_MODEL" "base" = "base" ∧
    resolveOpt flags.language env "FASTER_WHISPER_LANGUAGE" = none ∧
    resolveParam flags.device env "FASTER_WHISPER_DEVICE" "cpu" = "cpu" ∧
    resolveParam flags.compute_type env "FASTER_WHISPER_COMPUTE" "int8" = "int8" ∧
    (runMain flags env p).constructArgs = some ("base", "cpu", "int8") := by
  have h1 : resolveParam flags.model env "FASTER_WHISPER_MODEL" "base" = "base" := by
    simp [resolveParam, getenvD, hm, em]
  have h2 : resolveOpt flags.language env "FASTER_WHISPER_LANGUAGE" = none := by
    simp [resolveOpt, hl, el]
  have h3 : resolveParam flags.device env "FASTER_WHISPER_DEVICE" "cpu" = "cpu" := by
    simp [resolveParam, getenvD, hd, ed]
  have h4 : resolveParam flags.compute_type env "FASTER_WHISPER_COMPUTE" "int8" = "int8" := by
    simp [resolveParam, getenvD, hct, ec]
  refine ⟨h1, h2, h3, h4, ?_⟩
  rw [constructArgs_of_input flags env p i hin, h1, h3, h4]

theorem c6_defaults_witness :
    resolveParam (flagsInputOnly "a.wav").model envEmpty "FASTER_WHISPER_MODEL" "base"
      = "base" ∧
    resolveOpt (flagsInputOnly "a.wav").language envEmpty "FASTER_WHISPER_LANGUAGE" = none ∧
    resolveParam (flagsInputOnly "a.wav").device envEmpty "FASTER_WHISPER_DEVICE" "cpu"
      = "cpu" ∧
    resolveParam (flagsInputOnly "a.wav").compute_type envEmpty "FASTER_WHISPER_COMPUTE"
      "int8" = "int8" ∧
    (runMain (flagsInputOnly "a.wav") envEmpty (okProvider [])).constructArgs
      = some ("base", "cpu", "int8") :=
  c6_defaults (flagsInputOnly "a.wav") envEmpty (okProvider []) "a.wav"
    rfl rfl rfl rfl rfl rfl rfl rfl rfl

/-- C7: on every successful run the transcript is printed to stdout followed
by a newline and the exit code is 0. -/
theorem c7_success (flags : Flags) (env : OsEnv) (p : Provider) (i : String)
    (segs : List String)
    (hin : flags.input = some i)
    (hc : ∀ m d c, p.construct m d c = Except.ok ())
    (ht : ∀ inp lang, p.transcribe inp lang = Except.ok segs) :
    (runMain flags env p).exitCode = 0 ∧
    (runMain flags env p).stdout = renderText segs ++ "\n" := by
  simp only [runMain, hin, hc, ht]
  constructor <;> trivial

theorem c7_success_witness :
    (runMain (flagsInputOnly "a.wav") envEmpty (okProvider ["ok"])).exitCode = 0 ∧
    (runMain (flagsInputOnly "a.wav") envEmpty (okProvider ["ok"])).stdout
      = renderText ["ok"] ++ "\n" :=
  c7_success (flagsInputOnly "a.wav") envEmpty (okProvider ["ok"]) "a.wav" ["ok"] rfl
    (fun _ _ _ => rfl) (fun _ _ => rfl)

/-- C8: a segment that trims to the empty string between non-empty
neighbours yields consecutive spaces: on `["hello", "   ", "world"]` the
output line is `"hello  world"` with two spaces. -/
theorem c8_empty_middle_segment :
    (runMain (flagsInputOnly "a.wav") envEmpty
        (okProvider ["hello", "   ", "world"])).stdout = "hello  world\n" ∧
    renderText ["hello", "   ", "world"] = "hello  world" := by
  exact ⟨rfl, rfl⟩

/-- C9: `FASTER_WHISPER_LANGUAGE` set to the empty string (with no
`--language` flag) passes `some ""` as the language hint to the
transcription call; only an absent variable resolves to the auto-detect
value `none`. -/
theorem c9_empty_language_env (flags : Flags) (env e2 : OsEnv) (p : Provider) (i : String)
    (hin : flags.input = some i) (hflag : flags.language = none)
    (henv : env "FASTER_WHISPER_LANGUAGE" = some "")
    (hc : ∀ m d c, p.construct m d c = Except.ok ())
    (habsent : e2 "FASTER_WHISPER_LANGUAGE" = none) :
    (runMain flags env p).transcribeArgs = some (i, some "") ∧
    resolveOpt none e2 "FASTER_WHISPER_LANGUAGE" = none := by
  have hlang : resolveOpt flags.language env "FASTER_WHISPER_LANGUAGE" = some "" := by
    simp [resolveOpt, hflag, henv]
  constructor
  · simp only [runMain, hin, hc, hlang]
    cases htr : p.transcribe i (some "") with
    | error e => rfl
    | ok segs => rfl
  · simp [resolveOpt, habsent]

theorem c9_empty_language_env_witness :
    (runMain (flagsInputOnly "a.wav") (envOne "FASTER_WHISPER_LANGUAGE" "")
        (okProvider [])).transcribeArgs = some ("a.wav", some "") ∧
    resolveOpt none envEmpty "FASTER_WHISPER_LANGUAGE" = none :=
  c9_empty_language_env (flagsInputOnly "a.wav") (envOne "FASTER_WHISPER_LANGUAGE" "")
    envEmpty (okProvider []) "a.wav" rfl rfl (by decide) (fun _ _ _ => rfl) rfl

/-- C10: the wrapper is deterministic: identical flags, identical
environments and providers that agree on every construction and
transcription call produce identical stdout and identical exit codes. -/
theorem c10_deterministic (flags1 flags2 : Flags) (env1 env2 : OsEnv) (p1 p2 : Provider)
    (hf : flags1 = flags2) (he : ∀ n, env1 n = env2 n)
    (hc : ∀ m d c, p1.construct m d c = p2.construct m d c)
    (ht : ∀ inp lang, p1.transcribe inp lang = p2.transcribe inp lang) :
    (runMain flags1 env1 p1).stdout = (runMain flags2 env2 p2).stdout ∧
    (runMain flags1 env1 p1).exitCode = (runMain flags2 env2 p2).exitCode := by
  have he2 : env1 = env2 := funext he
  have hc2 : p1.construct = p2.construct :=
    funext fun m => funext fun d => funext fun c => hc m d c
  have ht2 : p1.transcribe = p2.transcribe :=
    funext fun inp => funext fun lang => ht inp lang
  have hp : p1 = p2 := by
    cases p1
    cases p2
    cases hc2
    cases ht2
    rfl
  rw [hf, he2, hp]
  exact ⟨rfl, rfl⟩

theorem c10_deterministic_witness :
    (runMain (flagsInputOnly "a.wav") envEmpty (okProvider ["x"])).stdout
      = (runMain (flagsInputOnly "a.wav") envEmpty (okProvider ["x"])).stdout ∧
    (runMain (flagsInputOnly "a.wav") envEmpty (okProvider ["x"])).exitCode
      = (runMain (flagsInputOnly "a.wav") envEmpty (okProvider ["x"])).exitCode :=
  c10_deterministic (flagsInputOnly "a.wav") (flagsInputOnly "a.wav") envEmpty envEmpty
    (okProvider ["x"]) (okProvider ["x"]) rfl (fun _ => rfl)
    (fun _ _ _ => rfl) (fun _ _ => rfl)

end FasterWhisperCli
